import Mathlib

/-!
Shallow embedding of `src/eppaurora/ionization.py` (pyeppaurora): atmospheric
ionization-rate parametrizations (Roble & Ridley 1987; Fang et al. 2008, 2010,
2013).  The Python code is elementwise numerical code over floating-point
arrays; we embed the scalar (per-element) semantics over the reals `ℝ`, with
energy grids and differential-flux spectra as lists of reals.  Array
broadcasting in the source corresponds to the scalar semantics modelled here.
-/

noncomputable section

open MeasureTheory

/-- Coefficient table `POLY_F2008` (8 rows of 4 ascending cubic coefficients). -/
def POLY_F2008 : List (List ℝ) := [
  [ 3.49979e-1, -6.18200e-2, -4.08124e-2,  1.65414e-2],
  [ 5.85425e-1, -5.00793e-2,  5.69309e-2, -4.02491e-3],
  [ 1.69692e-1, -2.58981e-2,  1.96822e-2,  1.20505e-3],
  [-1.22271e-1, -1.15532e-2,  5.37951e-6,  1.20189e-3],
  [ 1.57018,     2.87896e-1, -4.14857e-1,  5.18158e-2],
  [ 8.83195e-1,  4.31402e-2, -8.33599e-2,  1.02515e-2],
  [ 1.90953,    -4.74704e-2, -1.80200e-1,  2.46652e-2],
  [-1.29566,    -2.10952e-1,  2.73106e-1, -2.92752e-2]]

/-- Coefficient table `POLY_F2010` (8 rows of 4 ascending cubic coefficients). -/
def POLY_F2010 : List (List ℝ) := [
  [ 1.24616e0,   1.45903e0,  -2.42269e-1,  5.95459e-2],
  [ 2.23976e0,  -4.22918e-7,  1.36458e-2,  2.53332e-3],
  [ 1.41754e0,   1.44597e-1,  1.70433e-2,  6.39717e-4],
  [ 2.48775e-1, -1.50890e-1,  6.30894e-9,  1.23707e-3],
  [-4.65119e-1, -1.05081e-1, -8.95701e-2,  1.22450e-2],
  [ 3.86019e-1,  1.75430e-3, -7.42960e-4,  4.60881e-4],
  [-6.45454e-1,  8.49555e-4, -4.28581e-2, -2.99302e-3],
  [ 9.48930e-1,  1.97385e-1, -2.50660e-3, -2.06938e-3]]

/-- Coefficient table `POLY_F2013` (12 rows of 4 ascending cubic coefficients). -/
def POLY_F2013 : List (List ℝ) := [
  [ 2.55050e0,   2.69476e-1, -2.58425e-1,  4.43190e-2],
  [ 6.39287e-1, -1.85817e-1, -3.15636e-2,  1.01370e-2],
  [ 1.63996e0,   2.43580e-1,  4.29873e-2,  3.77803e-2],
  [-2.13479e-1,  1.42464e-1,  1.55840e-2,  1.97407e-3],
  [-1.65764e-1,  3.39654e-1, -9.87971e-3,  4.02411e-3],
  [-3.59358e-2,  2.50330e-2, -3.29365e-2,  5.08057e-3],
  [-6.26528e-1,  1.46865e0,   2.51853e-1, -4.57132e-2],
  [ 1.01384e0,   5.94301e-2, -3.27839e-2,  3.42688e-3],
  [-1.29454e-6, -1.43623e-1,  2.82583e-1,  8.29809e-2],
  [-1.18622e-1,  1.79191e-1,  6.49171e-2, -3.99715e-3],
  [ 2.94890e0,  -5.75821e-1,  2.48563e-2,  8.31078e-2],
  [-1.89515e-1,  3.53452e-2,  7.77964e-2, -4.06034e-3]]

/-- Horner evaluation of a polynomial given by descending-order coefficients,
as `np.polyval` does: `polyval [p0, p1, ..., pn] x = p0*x^n + ... + pn`. -/
def polyval (p : List ℝ) (x : ℝ) : ℝ :=
  p.foldl (fun acc c => acc * x + c) 0

/-- The `j`-th energy-dependent model coefficient, as the source computes it by
`np.exp(vpolyval(pij[:, ::-1].T, np.log(energy)))`: row `j` of the table is
reversed to descending order, evaluated at `log energy`, and exponentiated. -/
def fangCoeff (pij : List (List ℝ)) (energy : ℝ) (j : ℕ) : ℝ :=
  Real.exp (polyval ((pij.getD j []).reverse) (Real.log energy))

/-- Two-term dissipation shape of RR1987-type models with eight fixed scalar
constants: `c1*y^c2*exp(-c3*y^c4) + c5*y^c6*exp(-c7*y^c8)`. -/
def rr_f_y (c1 c2 c3 c4 c5 c6 c7 c8 y : ℝ) : ℝ :=
  c1 * y ^ c2 * Real.exp (-(c3) * y ^ c4) + c5 * y ^ c6 * Real.exp (-(c7) * y ^ c8)

/-- Two-term dissipation shape `_f_y` of the Fang 2008/2010 models over the
eight energy-dependent coefficients `c 0, ..., c 7`. -/
def fang_f_y (c : ℕ → ℝ) (y : ℝ) : ℝ :=
  c 0 * y ^ c 1 * Real.exp (-(c 2) * y ^ c 3) + c 4 * y ^ c 5 * Real.exp (-(c 6) * y ^ c 7)

/-- Three-term dissipation shape `_f_y` of the Fang 2013 proton model over the
twelve energy-dependent coefficients `c 0, ..., c 11`. -/
def fang_f_y3 (c : ℕ → ℝ) (y : ℝ) : ℝ :=
  c 0 * y ^ c 1 * Real.exp (-(c 2) * y ^ c 3) + c 4 * y ^ c 5 * Real.exp (-(c 6) * y ^ c 7)
    + c 8 * y ^ c 9 * Real.exp (-(c 10) * y ^ c 11)

/-- Scaled atmospheric depth of `rr1987`: `beta / energy` with
`beta = (rho * scale_height / (4 * 1e-6))**(1 / 1.65)`. -/
def rr1987_y (energy scale_height rho : ℝ) : ℝ :=
  (rho * scale_height / (4 * 1e-6)) ^ ((1 : ℝ) / 1.65) / energy

/-- Electron energy dissipation, Roble and Ridley 1987 (source `rr1987`). -/
def rr1987 (energy flux scale_height rho : ℝ) : ℝ :=
  0.5 * flux / scale_height *
    rr_f_y 2.11685 2.97035 2.09710 0.74054 0.58795 1.72746 1.37459 0.93296
      (rr1987_y energy scale_height rho)

/-- Scaled atmospheric depth of `rr1987_mod`:
`(rho * scale_height / (4.6 * 1e-6))**(1 / 1.65) / energy`. -/
def rr1987_mod_y (energy scale_height rho : ℝ) : ℝ :=
  (rho * scale_height / (4.6 * 1e-6)) ^ ((1 : ℝ) / 1.65) / energy

/-- Modified Roble and Ridley 1987 dissipation (source `rr1987_mod`). -/
def rr1987_mod (energy flux scale_height rho : ℝ) : ℝ :=
  0.5 * flux / scale_height *
    rr_f_y 3.233 2.56588 2.2541 0.7297198 1.106907 1.71349 1.8835444 0.86472135
      (rr1987_mod_y energy scale_height rho)

/-- Scaled atmospheric depth of `fang2008`:
`(rho * scale_height / (4e-6))**(1 / 1.65) / energy`. -/
def fang2008_y (energy scale_height rho : ℝ) : ℝ :=
  (rho * scale_height / 4e-6) ^ ((1 : ℝ) / 1.65) / energy

/-- Electron energy dissipation, Fang et al. 2008 (source `fang2008`). -/
def fang2008 (energy flux scale_height rho : ℝ) (pij : List (List ℝ)) : ℝ :=
  0.5 * fang_f_y (fangCoeff pij energy) (fang2008_y energy scale_height rho)
    * flux / scale_height

/-- Scaled atmospheric depth of `fang2010_mono`:
`2 / energy * (rho * scale_height / (6e-6))**0.7`. -/
def fang2010_y (energy scale_height rho : ℝ) : ℝ :=
  2 / energy * (rho * scale_height / 6e-6) ^ (0.7 : ℝ)

/-- Mono-energetic electron energy dissipation, Fang et al. 2010
(source `fang2010_mono`; the table parameter defaults to `POLY_F2010`). -/
def fang2010_mono (energy flux scale_height rho : ℝ) (pij : List (List ℝ)) : ℝ :=
  fang_f_y (fangCoeff pij energy) (fang2010_y energy scale_height rho)
    * flux / scale_height

/-- Trapezoidal quadrature of samples `ys` against abscissas `xs`, as
`np.trapz(ys, xs)`: the sum of `(x2 - x1) * (y1 + y2) / 2` over consecutive
pairs; fewer than two samples give `0`. -/
def trapz : List ℝ → List ℝ → ℝ
  | y1 :: y2 :: ys, x1 :: x2 :: xs => (x2 - x1) * (y1 + y2) / 2 + trapz (y2 :: ys) (x2 :: xs)
  | _, _ => 0

/-- Spectral integration of the Fang 2010 mono-energetic model
(source `fang2010_spec_int`): evaluate `fang2010_mono` at each (energy,
differential flux) sample, multiply elementwise by the energy (the source's
`ediss_f10 * ens`, fused into the zip), and integrate by `np.trapz` over the
energy grid. -/
def fang2010_spec_int (ens dfluxes : List ℝ) (scale_height rho : ℝ)
    (pij : List (List ℝ)) : ℝ :=
  trapz (List.zipWith (fun e φ => fang2010_mono e φ scale_height rho pij * e) ens dfluxes) ens

/-- Maxwell number-flux spectrum `maxwell_general`: `en * exp(-en / en_0)`. -/
def maxwell_general (en en_0 : ℝ) : ℝ :=
  en * Real.exp (-en / en_0)

/-- Maxwell particle-flux spectrum `maxwell_pflux`:
`0.5 / en_0**3 * maxwell_general(en, en_0)`. -/
def maxwell_pflux (en en_0 : ℝ) : ℝ :=
  0.5 / en_0 ^ 3 * maxwell_general en en_0

/-- Logarithmically spaced grid, as `np.logspace(start, stop, num)`:
`num` points `10 ^ (start + (stop - start) * i / (num - 1))`, `i = 0, ..., num-1`. -/
def logspace (start stop : ℝ) (num : ℕ) : List ℝ :=
  (List.range num).map
    (fun i : ℕ => (10 : ℝ) ^ (start + (stop - start) * (i : ℝ) / ((num : ℝ) - 1)))

/-- Maxwellian-integrated Fang 2010 dissipation (source `fang2010_maxw_int`):
build a base-10 log-spaced grid over `[b0, b1]`, scale `maxwell_pflux` at each
grid energy by `flux`, and delegate to `fang2010_spec_int`. -/
def fang2010_maxw_int (energy flux scale_height rho b0 b1 : ℝ) (nstep : ℕ)
    (pij : List (List ℝ)) : ℝ :=
  fang2010_spec_int (logspace (Real.logb 10 b0) (Real.logb 10 b1) nstep)
    ((logspace (Real.logb 10 b0) (Real.logb 10 b1) nstep).map
      (fun e => flux * maxwell_pflux e energy))
    scale_height rho pij

/-- Scaled atmospheric depth of `fang2013_protons`:
`7.5 / energy * (1e4 * rho * scale_height)**0.9`. -/
def fang2013_y (energy scale_height rho : ℝ) : ℝ :=
  7.5 / energy * (1e4 * rho * scale_height) ^ (0.9 : ℝ)

/-- Proton energy dissipation, Fang et al. 2013 (source `fang2013_protons`;
the table parameter defaults to `POLY_F2013`). -/
def fang2013_protons (energy flux scale_height rho : ℝ) (pij : List (List ℝ)) : ℝ :=
  fang_f_y3 (fangCoeff pij energy) (fang2013_y energy scale_height rho)
    * flux / scale_height

/-- Specification-side form of the energy-dependent coefficients: the `j`-th
coefficient is `exp(Pj0 + Pj1 ln E + Pj2 (ln E)^2 + Pj3 (ln E)^3)` with `Pj*`
the `j`-th row of the table (ascending cubic, written out directly). -/
def coeffClaim (pij : List (List ℝ)) (j : ℕ) (E : ℝ) : ℝ :=
  Real.exp ((pij.getD j []).getD 0 0 + (pij.getD j []).getD 1 0 * Real.log E
    + (pij.getD j []).getD 2 0 * Real.log E ^ 2 + (pij.getD j []).getD 3 0 * Real.log E ^ 3)

/-- Specification-side trapezoidal sum over the energy axis of the
energy-weighted integrand: the sum over consecutive grid pairs of
`(E2 - E1)/2 * (phi1 * q1 * E1 + phi2 * q2 * E2)`, with `q` the mono-energetic
Fang 2010 evaluation at unit flux (the differential flux enters once, as the
`phi` weight). -/
def specTrapzSum (H ρ : ℝ) (pij : List (List ℝ)) : List ℝ → List ℝ → ℝ
  | e1 :: e2 :: es, p1 :: p2 :: ps =>
      (e2 - e1) / 2 * (p1 * fang2010_mono e1 1 H ρ pij * e1
        + p2 * fang2010_mono e2 1 H ρ pij * e2)
      + specTrapzSum H ρ pij (e2 :: es) (p2 :: ps)
  | _, _ => 0

lemma fangCoeff_claim_F2010 (E : ℝ) (j : ℕ) :
    fangCoeff POLY_F2010 E j = coeffClaim POLY_F2010 j E := by
  rcases j with _ | _ | _ | _ | _ | _ | _ | _ | j <;>
    simp [fangCoeff, coeffClaim, POLY_F2010, polyval] <;> ring_nf

lemma fangCoeff_claim_F2013 (E : ℝ) (j : ℕ) :
    fangCoeff POLY_F2013 E j = coeffClaim POLY_F2013 j E := by
  rcases j with _ | _ | _ | _ | _ | _ | _ | _ | _ | _ | _ | _ | j <;>
    simp [fangCoeff, coeffClaim, POLY_F2013, polyval] <;> ring_nf

lemma fangCoeff_pos (pij : List (List ℝ)) (energy : ℝ) (j : ℕ) :
    0 < fangCoeff pij energy j :=
  Real.exp_pos _

lemma fang_f_y_pos {c : ℕ → ℝ} {y : ℝ} (hc : ∀ j, 0 < c j) (hy : 0 < y) :
    0 < fang_f_y c y := by
  have h0 := hc 0
  have h4 := hc 4
  unfold fang_f_y
  positivity

lemma fang_f_y3_pos {c : ℕ → ℝ} {y : ℝ} (hc : ∀ j, 0 < c j) (hy : 0 < y) :
    0 < fang_f_y3 c y := by
  have h0 := hc 0
  have h4 := hc 4
  have h8 := hc 8
  unfold fang_f_y3
  positivity

lemma rr_f_y_pos {c1 c5 : ℝ} (c2 c3 c4 c6 c7 c8 : ℝ) {y : ℝ}
    (h1 : 0 < c1) (h5 : 0 < c5) (hy : 0 < y) :
    0 < rr_f_y c1 c2 c3 c4 c5 c6 c7 c8 y := by
  unfold rr_f_y
  positivity

lemma rr1987_y_pos {energy scale_height rho : ℝ} (hE : 0 < energy)
    (hH : 0 < scale_height) (hr : 0 < rho) : 0 < rr1987_y energy scale_height rho := by
  unfold rr1987_y
  positivity

lemma rr1987_mod_y_pos {energy scale_height rho : ℝ} (hE : 0 < energy)
    (hH : 0 < scale_height) (hr : 0 < rho) : 0 < rr1987_mod_y energy scale_height rho := by
  unfold rr1987_mod_y
  positivity

lemma fang2008_y_pos {energy scale_height rho : ℝ} (hE : 0 < energy)
    (hH : 0 < scale_height) (hr : 0 < rho) : 0 < fang2008_y energy scale_height rho := by
  unfold fang2008_y
  positivity

lemma fang2010_y_pos {energy scale_height rho : ℝ} (hE : 0 < energy)
    (hH : 0 < scale_height) (hr : 0 < rho) : 0 < fang2010_y energy scale_height rho := by
  unfold fang2010_y
  positivity

lemma fang2013_y_pos {energy scale_height rho : ℝ} (hE : 0 < energy)
    (hH : 0 < scale_height) (hr : 0 < rho) : 0 < fang2013_y energy scale_height rho := by
  unfold fang2013_y
  positivity

lemma rr1987_pos {energy flux scale_height rho : ℝ} (hE : 0 < energy) (hQ : 0 < flux)
    (hH : 0 < scale_height) (hr : 0 < rho) : 0 < rr1987 energy flux scale_height rho := by
  have hy := rr1987_y_pos hE hH hr
  have hf := rr_f_y_pos 2.97035 2.09710 0.74054 1.72746 1.37459 0.93296
    (by norm_num : (0:ℝ) < 2.11685) (by norm_num : (0:ℝ) < 0.58795) hy
  unfold rr1987
  positivity

lemma rr1987_mod_pos {energy flux scale_height rho : ℝ} (hE : 0 < energy) (hQ : 0 < flux)
    (hH : 0 < scale_height) (hr : 0 < rho) : 0 < rr1987_mod energy flux scale_height rho := by
  have hy := rr1987_mod_y_pos hE hH hr
  have hf := rr_f_y_pos 2.56588 2.2541 0.7297198 1.71349 1.8835444 0.86472135
    (by norm_num : (0:ℝ) < 3.233) (by norm_num : (0:ℝ) < 1.106907) hy
  unfold rr1987_mod
  positivity

lemma fang2008_pos {energy flux scale_height rho : ℝ} (pij : List (List ℝ))
    (hE : 0 < energy) (hQ : 0 < flux) (hH : 0 < scale_height) (hr : 0 < rho) :
    0 < fang2008 energy flux scale_height rho pij := by
  have hf := fang_f_y_pos (fangCoeff_pos pij energy) (fang2008_y_pos hE hH hr)
  unfold fang2008
  positivity

lemma fang2010_mono_pos {energy flux scale_height rho : ℝ} (pij : List (List ℝ))
    (hE : 0 < energy) (hQ : 0 < flux) (hH : 0 < scale_height) (hr : 0 < rho) :
    0 < fang2010_mono energy flux scale_height rho pij := by
  have hf := fang_f_y_pos (fangCoeff_pos pij energy) (fang2010_y_pos hE hH hr)
  unfold fang2010_mono
  positivity

lemma fang2013_protons_pos {energy flux scale_height rho : ℝ} (pij : List (List ℝ))
    (hE : 0 < energy) (hQ : 0 < flux) (hH : 0 < scale_height) (hr : 0 < rho) :
    0 < fang2013_protons energy flux scale_height rho pij := by
  have hf := fang_f_y3_pos (fangCoeff_pos pij energy) (fang2013_y_pos hE hH hr)
  unfold fang2013_protons
  positivity

/-- C1: for strictly positive scalar inputs, `fang2010_mono(E, Q, H, rho)`
returns `f(y) * Q / H` with `y = (2/E) * (rho*H/6e-6)^0.7` and
`f(y) = C1*y^C2*exp(-C3*y^C4) + C5*y^C6*exp(-C7*y^C8)`, each coefficient being
`exp` of the ascending cubic in `ln E` over the corresponding row of
`POLY_F2010` (the source evaluates it with the coefficients reversed to
descending order). -/
theorem fang2010_mono_closed_form (E Q H ρ : ℝ) (hE : 0 < E) (hQ : 0 < Q)
    (hH : 0 < H) (hρ : 0 < ρ) :
    fang2010_mono E Q H ρ POLY_F2010 =
      fang_f_y (fun j => coeffClaim POLY_F2010 j E)
        (2 / E * (ρ * H / 6e-6) ^ (0.7 : ℝ)) * Q / H := by
  have hc : (fangCoeff POLY_F2010 E) = fun j => coeffClaim POLY_F2010 j E := by
    funext j
    exact fangCoeff_claim_F2010 E j
  rw [fang2010_mono, fang2010_y, hc]

/-- Witness for C1 at `E = Q = H = rho = 1`. -/
theorem fang2010_mono_closed_form_witness :
    (0:ℝ) < 1 ∧
      fang2010_mono 1 1 1 1 POLY_F2010 =
        fang_f_y (fun j => coeffClaim POLY_F2010 j 1)
          (2 / 1 * ((1:ℝ) * 1 / 6e-6) ^ (0.7 : ℝ)) * 1 / 1 :=
  ⟨by norm_num,
    fang2010_mono_closed_form 1 1 1 1 (by norm_num) (by norm_num) (by norm_num) (by norm_num)⟩

/-- C4: `maxwell_general(en, en0) = en * exp(-en/en0)`,
`maxwell_pflux(en, en0) = 0.5/en0^3 * maxwell_general(en, en0)`, and for every
`en0 > 0` the exact integral of `en * maxwell_pflux(en, en0)` over
`en ∈ (0, ∞)` equals `1`. -/
theorem maxwell_pflux_normalized (en en_0 : ℝ) (h : 0 < en_0) :
    maxwell_general en en_0 = en * Real.exp (-en / en_0)
      ∧ maxwell_pflux en en_0 = 0.5 / en_0 ^ 3 * maxwell_general en en_0
      ∧ ∫ x in Set.Ioi (0:ℝ), x * maxwell_pflux x en_0 = 1 := by
  refine ⟨rfl, rfl, ?_⟩
  have hr : (0:ℝ) < 1 / en_0 := by positivity
  have key := Real.integral_rpow_mul_exp_neg_mul_Ioi (a := 3) (r := 1 / en_0)
    (by norm_num) hr
  have hfun : ∀ x : ℝ, x * maxwell_pflux x en_0
      = 0.5 / en_0 ^ 3 * (x ^ ((3:ℝ) - 1) * Real.exp (-(1 / en_0 * x))) := by
    intro x
    have h2 : x ^ ((3:ℝ) - 1) = x ^ (2:ℕ) := by
      rw [show ((3:ℝ) - 1) = ((2:ℕ):ℝ) by norm_num, Real.rpow_natCast]
    have h3 : -x / en_0 = -(1 / en_0 * x) := by ring
    rw [maxwell_pflux, maxwell_general, h2, h3]
    ring
  rw [MeasureTheory.integral_congr_ae (Filter.Eventually.of_forall fun x => hfun x)]
  rw [MeasureTheory.integral_mul_left, key]
  have hg : Real.Gamma 3 = 2 := by
    rw [show (3:ℝ) = ((2:ℕ):ℝ) + 1 by norm_num, Real.Gamma_nat_eq_factorial]
    norm_num [Nat.factorial]
  rw [hg, one_div_one_div, show ((3:ℝ)) = ((3:ℕ):ℝ) by norm_num, Real.rpow_natCast]
  field_simp
  ring

/-- Witness for C4 at `en = 1`, `en0 = 1`. -/
theorem maxwell_pflux_normalized_witness :
    (0:ℝ) < 1 ∧
      (maxwell_general 1 1 = 1 * Real.exp (-1 / 1)
        ∧ maxwell_pflux 1 1 = 0.5 / 1 ^ 3 * maxwell_general 1 1
        ∧ ∫ x in Set.Ioi (0:ℝ), x * maxwell_pflux x 1 = 1) :=
  ⟨by norm_num, maxwell_pflux_normalized 1 1 (by norm_num)⟩

/-- C5: for strictly positive scalar inputs, `rr1987` returns
`Q / (2*H) * f(y)` with `y = (rho*H/(4e-6))^(1/1.65) / E` and the fixed
two-term `f`; `fang2008` likewise scales its summed term by
`flux / (2 * scale_height)`, while `fang2010_mono` and `fang2013_protons`
scale theirs by `flux / scale_height`. -/
theorem dissipation_scaling (E Q H ρ : ℝ) (pij : List (List ℝ)) (hE : 0 < E)
    (hQ : 0 < Q) (hH : 0 < H) (hρ : 0 < ρ) :
    rr1987 E Q H ρ =
        Q / (2 * H) *
          rr_f_y 2.11685 2.97035 2.09710 0.74054 0.58795 1.72746 1.37459 0.93296
            ((ρ * H / 4e-6) ^ ((1 : ℝ) / 1.65) / E)
      ∧ fang2008 E Q H ρ pij =
          fang_f_y (fangCoeff pij E) (fang2008_y E H ρ) * Q / (2 * H)
      ∧ fang2010_mono E Q H ρ pij =
          fang_f_y (fangCoeff pij E) (fang2010_y E H ρ) * Q / H
      ∧ fang2013_protons E Q H ρ pij =
          fang_f_y3 (fangCoeff pij E) (fang2013_y E H ρ) * Q / H := by
  refine ⟨?_, ?_, rfl, rfl⟩
  · rw [rr1987, rr1987_y, show (4:ℝ) * 1e-6 = 4e-6 by norm_num]
    ring
  · rw [fang2008]
    ring

/-- Witness for C5 at `E = Q = H = rho = 1` with the `POLY_F2008` table. -/
theorem dissipation_scaling_witness :
    (0:ℝ) < 1 ∧
      (rr1987 1 1 1 1 =
          1 / (2 * 1) *
            rr_f_y 2.11685 2.97035 2.09710 0.74054 0.58795 1.72746 1.37459 0.93296
              (((1:ℝ) * 1 / 4e-6) ^ ((1 : ℝ) / 1.65) / 1)
        ∧ fang2008 1 1 1 1 POLY_F2008 =
            fang_f_y (fangCoeff POLY_F2008 1) (fang2008_y 1 1 1) * 1 / (2 * 1)
        ∧ fang2010_mono 1 1 1 1 POLY_F2008 =
            fang_f_y (fangCoeff POLY_F2008 1) (fang2010_y 1 1 1) * 1 / 1
        ∧ fang2013_protons 1 1 1 1 POLY_F2008 =
            fang_f_y3 (fangCoeff POLY_F2008 1) (fang2013_y 1 1 1) * 1 / 1) :=
  ⟨by norm_num,
    dissipation_scaling 1 1 1 1 POLY_F2008 (by norm_num) (by norm_num) (by norm_num) (by norm_num)⟩

/-- C6: each mono-energetic model computes its depth variable `y` from
`rho * scale_height` raised to a model-fixed fractional power, scaled by a
model-fixed constant and divided by the energy: `rr1987` uses
`(rho*H/(4*1e-6))^(1/1.65)/E`, `rr1987_mod` uses `(rho*H/(4.6*1e-6))^(1/1.65)/E`,
`fang2010_mono` uses `2/E * (rho*H/6e-6)^0.7`, and `fang2013_protons` uses
`7.5/E * (1e4*rho*H)^0.9` followed by a three-term sum over the 12-row table. -/
theorem depth_variables (E Q H ρ : ℝ) :
    rr1987_y E H ρ = (ρ * H / (4 * 1e-6)) ^ ((1 : ℝ) / 1.65) / E
      ∧ rr1987_mod_y E H ρ = (ρ * H / (4.6 * 1e-6)) ^ ((1 : ℝ) / 1.65) / E
      ∧ fang2010_y E H ρ = 2 / E * (ρ * H / 6e-6) ^ (0.7 : ℝ)
      ∧ fang2013_y E H ρ = 7.5 / E * (1e4 * ρ * H) ^ (0.9 : ℝ)
      ∧ rr1987 E Q H ρ =
          0.5 * Q / H *
            rr_f_y 2.11685 2.97035 2.09710 0.74054 0.58795 1.72746 1.37459 0.93296
              (rr1987_y E H ρ)
      ∧ rr1987_mod E Q H ρ =
          0.5 * Q / H *
            rr_f_y 3.233 2.56588 2.2541 0.7297198 1.106907 1.71349 1.8835444 0.86472135
              (rr1987_mod_y E H ρ)
      ∧ POLY_F2013.length = 12
      ∧ fang2013_protons E Q H ρ POLY_F2013 =
          fang_f_y3 (fangCoeff POLY_F2013 E) (fang2013_y E H ρ) * Q / H :=
  ⟨rfl, rfl, rfl, rfl, rfl, rfl, rfl, rfl⟩

/-- C7: for energies in `[0.1, 1000]` keV and strictly positive flux, scale
height and density, each of the five mono-energetic models returns a strictly
positive (in particular non-negative) dissipated-energy value. -/
theorem dissipation_nonneg (E Q H ρ : ℝ) (hE1 : 0.1 ≤ E) (hE2 : E ≤ 1000)
    (hQ : 0 < Q) (hH : 0 < H) (hρ : 0 < ρ) :
    0 < rr1987 E Q H ρ
      ∧ 0 < rr1987_mod E Q H ρ
      ∧ 0 < fang2008 E Q H ρ POLY_F2008
      ∧ 0 < fang2010_mono E Q H ρ POLY_F2010
      ∧ 0 < fang2013_protons E Q H ρ POLY_F2013 := by
  have hE : 0 < E := lt_of_lt_of_le (by norm_num) hE1
  exact ⟨rr1987_pos hE hQ hH hρ, rr1987_mod_pos hE hQ hH hρ,
    fang2008_pos POLY_F2008 hE hQ hH hρ, fang2010_mono_pos POLY_F2010 hE hQ hH hρ,
    fang2013_protons_pos POLY_F2013 hE hQ hH hρ⟩

/-- Witness for C7 at `E = 1`, `Q = H = rho = 1`. -/
theorem dissipation_nonneg_witness :
    ((0.1:ℝ) ≤ 1 ∧ (1:ℝ) ≤ 1000) ∧
      (0 < rr1987 1 1 1 1
        ∧ 0 < rr1987_mod 1 1 1 1
        ∧ 0 < fang2008 1 1 1 1 POLY_F2008
        ∧ 0 < fang2010_mono 1 1 1 1 POLY_F2010
        ∧ 0 < fang2013_protons 1 1 1 1 POLY_F2013) :=
  ⟨⟨by norm_num, by norm_num⟩,
    dissipation_nonneg 1 1 1 1 (by norm_num) (by norm_num) (by norm_num) (by norm_num) (by norm_num)⟩

lemma logspace_length (a b : ℝ) (n : ℕ) : (logspace a b n).length = n := by
  rw [logspace, List.length_map, List.length_range]

lemma logspace_first (a b : ℝ) (n : ℕ) (hn : 0 < n) :
    (logspace a b n)[0]? = some ((10:ℝ) ^ a) := by
  rw [logspace, List.getElem?_map, List.getElem?_range hn]
  norm_num

lemma logspace_last (a b : ℝ) (n : ℕ) (hn : 2 ≤ n) :
    (logspace a b n)[n - 1]? = some ((10:ℝ) ^ b) := by
  have h1 : n - 1 < n := by omega
  have hc : ((n - 1 : ℕ) : ℝ) = (n : ℝ) - 1 := by
    have h : (1:ℕ) ≤ n := by omega
    push_cast [h]
    ring
  have h2 : (2:ℝ) ≤ (n:ℝ) := by exact_mod_cast hn
  have hne : (n:ℝ) - 1 ≠ 0 := by linarith
  rw [logspace, List.getElem?_map, List.getElem?_range h1, Option.map_some']
  rw [hc, mul_div_assoc, div_self hne, mul_one]
  norm_num

/-- C3: for positive scalar inputs, bounds `0 < b0 < b1` and `nstep ≥ 2`,
`fang2010_maxw_int` builds a log-spaced grid of exactly `nstep` energies with
first element `b0` and last element `b1`, computes the differential flux at
each grid energy as `flux * maxwell_pflux(grid_energy, energy)`, and returns
exactly `fang2010_spec_int` applied to that grid and those fluxes with the
same scale height, density and table. -/
theorem fang2010_maxw_int_grid (E Q H ρ b0 b1 : ℝ) (n : ℕ) (pij : List (List ℝ))
    (hE : 0 < E) (hQ : 0 < Q) (hH : 0 < H) (hρ : 0 < ρ)
    (hb0 : 0 < b0) (hb01 : b0 < b1) (hn : 2 ≤ n) :
    (logspace (Real.logb 10 b0) (Real.logb 10 b1) n).length = n
      ∧ (logspace (Real.logb 10 b0) (Real.logb 10 b1) n)[0]? = some b0
      ∧ (logspace (Real.logb 10 b0) (Real.logb 10 b1) n)[n - 1]? = some b1
      ∧ fang2010_maxw_int E Q H ρ b0 b1 n pij =
          fang2010_spec_int (logspace (Real.logb 10 b0) (Real.logb 10 b1) n)
            ((logspace (Real.logb 10 b0) (Real.logb 10 b1) n).map
              (fun e => Q * maxwell_pflux e E))
            H ρ pij := by
  have hb1 : 0 < b1 := lt_trans hb0 hb01
  refine ⟨logspace_length _ _ _, ?_, ?_, rfl⟩
  · rw [logspace_first _ _ _ (by omega)]
    rw [Real.rpow_logb (by norm_num) (by norm_num) hb0]
  · rw [logspace_last _ _ _ hn]
    rw [Real.rpow_logb (by norm_num) (by norm_num) hb1]

/-- Witness for C3 at `E = Q = H = rho = 1`, bounds `(1, 10)`, `nstep = 2`,
table `POLY_F2010`. -/
theorem fang2010_maxw_int_grid_witness :
    ((0:ℝ) < 1 ∧ (1:ℝ) < 10 ∧ 2 ≤ 2) ∧
      ((logspace (Real.logb 10 1) (Real.logb 10 10) 2).length = 2
        ∧ (logspace (Real.logb 10 1) (Real.logb 10 10) 2)[0]? = some 1
        ∧ (logspace (Real.logb 10 1) (Real.logb 10 10) 2)[2 - 1]? = some 10
        ∧ fang2010_maxw_int 1 1 1 1 1 10 2 POLY_F2010 =
            fang2010_spec_int (logspace (Real.logb 10 1) (Real.logb 10 10) 2)
              ((logspace (Real.logb 10 1) (Real.logb 10 10) 2).map
                (fun e => 1 * maxwell_pflux e 1))
              1 1 POLY_F2010) :=
  ⟨⟨by norm_num, by norm_num, le_refl 2⟩,
    fang2010_maxw_int_grid 1 1 1 1 1 10 2 POLY_F2010 (by norm_num) (by norm_num)
      (by norm_num) (by norm_num) (by norm_num) (by norm_num) (le_refl 2)⟩

/-- C8: `fang2010_spec_int` on a single-bin spectrum reduces to the direct
mono-energetic evaluation weighted by energy under the single-point
trapezoidal rule, whose quadrature weight is zero: the integral of a
one-sample trapezoid is `0`. -/
theorem fang2010_spec_int_single_bin (E φ H ρ : ℝ) (pij : List (List ℝ)) :
    fang2010_spec_int [E] [φ] H ρ pij =
        trapz [fang2010_mono E φ H ρ pij * E] [E]
      ∧ trapz [fang2010_mono E φ H ρ pij * E] [E] = 0 :=
  ⟨rfl, rfl⟩

lemma fang2010_spec_int_eq_sum (H ρ : ℝ) (pij : List (List ℝ)) :
    ∀ ens dfluxes : List ℝ,
      fang2010_spec_int ens dfluxes H ρ pij = specTrapzSum H ρ pij ens dfluxes := by
  intro ens
  induction ens with
  | nil => intro dfluxes; rfl
  | cons e1 es ih =>
    intro dfluxes
    cases es with
    | nil =>
      cases dfluxes with
      | nil => rfl
      | cons p1 ps => rfl
    | cons e2 es2 =>
      cases dfluxes with
      | nil => rfl
      | cons p1 ps =>
        cases ps with
        | nil => rfl
        | cons p2 ps2 =>
          have h := ih (p2 :: ps2)
          simp only [fang2010_spec_int, List.zipWith_cons_cons] at h ⊢
          simp only [trapz, specTrapzSum]
          rw [h]
          simp only [fang2010_mono]
          ring

lemma fang2010_spec_int_smul (k H ρ : ℝ) (pij : List (List ℝ)) :
    ∀ ens dfluxes : List ℝ,
      fang2010_spec_int ens (dfluxes.map (fun p => k * p)) H ρ pij
        = k * fang2010_spec_int ens dfluxes H ρ pij := by
  intro ens
  induction ens with
  | nil => intro dfluxes; simp [fang2010_spec_int, trapz]
  | cons e1 es ih =>
    intro dfluxes
    cases es with
    | nil =>
      cases dfluxes with
      | nil => simp [fang2010_spec_int, trapz]
      | cons p1 ps => simp [fang2010_spec_int, trapz]
    | cons e2 es2 =>
      cases dfluxes with
      | nil => simp [fang2010_spec_int, trapz]
      | cons p1 ps =>
        cases ps with
        | nil => simp [fang2010_spec_int, trapz]
        | cons p2 ps2 =>
          have h := ih (p2 :: ps2)
          simp only [fang2010_spec_int, List.zipWith_cons_cons, List.map_cons] at h ⊢
          simp only [trapz]
          rw [h]
          simp only [fang2010_mono]
          ring

/-- C2 counterexample: on the two-point grid `E = [1, 2]` with differential
fluxes `phi = [2, 2]`, `H = rho = 1`, the value of `fang2010_spec_int` is NOT
the claimed sum `(E2-E1)/2 * (phi1*q1*E1 + phi2*q2*E2)` when `q_i` is read as
`fang2010_mono(E_i, phi_i, H, rho)`: the differential flux would then enter
the sum twice. -/
theorem fang2010_spec_int_claim_counterexample :
    fang2010_spec_int [1, 2] [2, 2] 1 1 POLY_F2010 ≠
      (2 - 1) / 2 * (2 * fang2010_mono 1 2 1 1 POLY_F2010 * 1
        + 2 * fang2010_mono 2 2 1 1 POLY_F2010 * 2) := by
  have h1 : 0 < fang2010_mono 1 2 1 1 POLY_F2010 :=
    fang2010_mono_pos POLY_F2010 (by norm_num) (by norm_num) (by norm_num) (by norm_num)
  have h2 : 0 < fang2010_mono 2 2 1 1 POLY_F2010 :=
    fang2010_mono_pos POLY_F2010 (by norm_num) (by norm_num) (by norm_num) (by norm_num)
  intro h
  simp only [fang2010_spec_int, List.zipWith_cons_cons, List.zipWith_nil_left,
    List.zipWith_nil_right, trapz] at h
  nlinarith [h1, h2]

/-- C2 (amended): `fang2010_spec_int` returns the trapezoidal sum over the
energy axis of the energy-weighted integrand, i.e. the sum over consecutive
grid points of `(E2 - E1)/2 * (phi1 * q1 * E1 + phi2 * q2 * E2)`, where
`q_i = fang2010_mono(E_i, 1, H, rho)` is the mono-energetic evaluation at unit
flux (the differential flux `phi_i` enters the integrand exactly once). -/
theorem fang2010_spec_int_trapezoidal (ens dfluxes : List ℝ) (H ρ : ℝ)
    (pij : List (List ℝ)) :
    fang2010_spec_int ens dfluxes H ρ pij = specTrapzSum H ρ pij ens dfluxes :=
  fang2010_spec_int_eq_sum H ρ pij ens dfluxes

lemma fang2010_maxw_int_smul (k E Q H ρ b0 b1 : ℝ) (n : ℕ) (pij : List (List ℝ)) :
    fang2010_maxw_int E (k * Q) H ρ b0 b1 n pij
      = k * fang2010_maxw_int E Q H ρ b0 b1 n pij := by
  have hmap : (fun e => k * Q * maxwell_pflux e E)
      = (fun p => k * p) ∘ (fun e => Q * maxwell_pflux e E) := by
    funext e
    simp only [Function.comp]
    ring
  rw [fang2010_maxw_int, fang2010_maxw_int, hmap, ← List.map_map]
  exact fang2010_spec_int_smul k H ρ pij _ _

/-- C10: every dissipation function is homogeneous of degree one in its flux
argument: scaling the flux (or each differential flux) by `k ≥ 0` scales the
result by `k`, since the flux enters each computation only as a single
multiplicative factor. -/
theorem flux_linearity (k E Q H ρ b0 b1 : ℝ) (n : ℕ) (pij : List (List ℝ))
    (ens dfluxes : List ℝ) (hk : 0 ≤ k) (hE : 0 < E) (hQ : 0 < Q) (hH : 0 < H)
    (hρ : 0 < ρ) :
    rr1987 E (k * Q) H ρ = k * rr1987 E Q H ρ
      ∧ rr1987_mod E (k * Q) H ρ = k * rr1987_mod E Q H ρ
      ∧ fang2008 E (k * Q) H ρ pij = k * fang2008 E Q H ρ pij
      ∧ fang2010_mono E (k * Q) H ρ pij = k * fang2010_mono E Q H ρ pij
      ∧ fang2013_protons E (k * Q) H ρ pij = k * fang2013_protons E Q H ρ pij
      ∧ fang2010_spec_int ens (dfluxes.map (fun p => k * p)) H ρ pij
          = k * fang2010_spec_int ens dfluxes H ρ pij
      ∧ fang2010_maxw_int E (k * Q) H ρ b0 b1 n pij
          = k * fang2010_maxw_int E Q H ρ b0 b1 n pij := by
  refine ⟨?_, ?_, ?_, ?_, ?_, fang2010_spec_int_smul k H ρ pij ens dfluxes,
    fang2010_maxw_int_smul k E Q H ρ b0 b1 n pij⟩
  · rw [rr1987, rr1987]; ring
  · rw [rr1987_mod, rr1987_mod]; ring
  · rw [fang2008, fang2008]; ring
  · rw [fang2010_mono, fang2010_mono]; ring
  · rw [fang2013_protons, fang2013_protons]; ring

/-- Witness for C10 at `k = 2`, all other scalars `1` (bounds `(1, 10)`,
`nstep = 2`, table `POLY_F2010`, grid `[1, 2]`, fluxes `[1, 1]`). -/
theorem flux_linearity_witness :
    (0:ℝ) ≤ 2 ∧
      (rr1987 1 (2 * 1) 1 1 = 2 * rr1987 1 1 1 1
        ∧ rr1987_mod 1 (2 * 1) 1 1 = 2 * rr1987_mod 1 1 1 1
        ∧ fang2008 1 (2 * 1) 1 1 POLY_F2010 = 2 * fang2008 1 1 1 1 POLY_F2010
        ∧ fang2010_mono 1 (2 * 1) 1 1 POLY_F2010 = 2 * fang2010_mono 1 1 1 1 POLY_F2010
        ∧ fang2013_protons 1 (2 * 1) 1 1 POLY_F2010
            = 2 * fang2013_protons 1 1 1 1 POLY_F2010
        ∧ fang2010_spec_int [1, 2] (List.map (fun p => 2 * p) [1, 1]) 1 1 POLY_F2010
            = 2 * fang2010_spec_int [1, 2] [1, 1] 1 1 POLY_F2010
        ∧ fang2010_maxw_int 1 (2 * 1) 1 1 1 10 2 POLY_F2010
            = 2 * fang2010_maxw_int 1 1 1 1 1 10 2 POLY_F2010) :=
  ⟨by norm_num,
    flux_linearity 2 1 1 1 1 1 10 2 POLY_F2010 [1, 2] [1, 1] (by norm_num) (by norm_num)
      (by norm_num) (by norm_num) (by norm_num)⟩

end
